import Mathlib

/-!
Verification of the `mss` CLI (macOS scripting-addition manager) against its
specification. The definitions below are a shallow embedding of the C sources:

  * `src/src/common.h` — capability bitmask constants and the opcode enumeration;
  * `src/src/util.h`   — `socket_connect`, `socket_close`, `is_root`;
  * `src/cli/cli.c`    — the command handlers `cmd_status`, `cmd_test`,
    `cmd_check`, `cmd_install`, `cmd_load`, `cmd_uninstall`.

Machine integers are embedded as `Nat` (all values involved are small and
non-negative; `capabilities` is a `uint32_t` in the C code). Calls into the
`mss` library and the operating system are embedded as explicit environment
inputs, since the handlers only inspect their results.
-/

/-! ## Capability model (src/src/common.h) -/

def OSAX_ATTRIB_DOCK_SPACES : Nat := 0x01
def OSAX_ATTRIB_DPPM        : Nat := 0x02
def OSAX_ATTRIB_ADD_SPACE   : Nat := 0x04
def OSAX_ATTRIB_REM_SPACE   : Nat := 0x08
def OSAX_ATTRIB_MOV_SPACE   : Nat := 0x10
def OSAX_ATTRIB_SET_WINDOW  : Nat := 0x20
def OSAX_ATTRIB_ANIM_TIME   : Nat := 0x40

def OSAX_ATTRIB_ALL : Nat :=
  OSAX_ATTRIB_DOCK_SPACES ||| OSAX_ATTRIB_DPPM ||| OSAX_ATTRIB_ADD_SPACE |||
  OSAX_ATTRIB_REM_SPACE ||| OSAX_ATTRIB_MOV_SPACE ||| OSAX_ATTRIB_SET_WINDOW |||
  OSAX_ATTRIB_ANIM_TIME

/-- The seven capability flags of `common.h`, in declaration order. -/
def osaxAttribList : List Nat :=
  [OSAX_ATTRIB_DOCK_SPACES, OSAX_ATTRIB_DPPM, OSAX_ATTRIB_ADD_SPACE,
   OSAX_ATTRIB_REM_SPACE, OSAX_ATTRIB_MOV_SPACE, OSAX_ATTRIB_SET_WINDOW,
   OSAX_ATTRIB_ANIM_TIME]

/-- Modelled from the spec: the `MSS_CAP_*` constants used by `cli.c` come from
`mss.h`, which is not among the repository files under `src/`; the spec's
fixed enumeration of 7 capabilities (dock-spaces, desktop-picture-manager,
add-space, remove-space, move-space, set-window, animation-time) matches the
`OSAX_ATTRIB_*` constants of `common.h` in order, so each `MSS_CAP_*` constant
is modelled as the corresponding `OSAX_ATTRIB_*` bit. -/
def MSS_CAP_DOCK_SPACES : Nat := OSAX_ATTRIB_DOCK_SPACES

def MSS_CAP_DPPM : Nat := OSAX_ATTRIB_DPPM

def MSS_CAP_ADD_SPACE : Nat := OSAX_ATTRIB_ADD_SPACE

def MSS_CAP_REM_SPACE : Nat := OSAX_ATTRIB_REM_SPACE

def MSS_CAP_MOV_SPACE : Nat := OSAX_ATTRIB_MOV_SPACE

def MSS_CAP_SET_WINDOW : Nat := OSAX_ATTRIB_SET_WINDOW

def MSS_CAP_ANIM_TIME : Nat := OSAX_ATTRIB_ANIM_TIME

/-! ## Opcode enumeration (src/src/common.h, `enum sa_opcode`) -/

def SA_OPCODE_HANDSHAKE             : Nat := 0x01
def SA_OPCODE_SPACE_FOCUS           : Nat := 0x02
def SA_OPCODE_SPACE_CREATE          : Nat := 0x03
def SA_OPCODE_SPACE_DESTROY         : Nat := 0x04
def SA_OPCODE_SPACE_MOVE            : Nat := 0x05
def SA_OPCODE_WINDOW_MOVE           : Nat := 0x06
def SA_OPCODE_WINDOW_OPACITY        : Nat := 0x07
def SA_OPCODE_WINDOW_OPACITY_FADE   : Nat := 0x08
def SA_OPCODE_WINDOW_LAYER          : Nat := 0x09
def SA_OPCODE_WINDOW_STICKY         : Nat := 0x0A
def SA_OPCODE_WINDOW_SHADOW         : Nat := 0x0B
def SA_OPCODE_WINDOW_FOCUS          : Nat := 0x0C
def SA_OPCODE_WINDOW_SCALE          : Nat := 0x0D
def SA_OPCODE_WINDOW_SWAP_PROXY_IN  : Nat := 0x0E
def SA_OPCODE_WINDOW_SWAP_PROXY_OUT : Nat := 0x0F
def SA_OPCODE_WINDOW_ORDER          : Nat := 0x10
def SA_OPCODE_WINDOW_ORDER_IN       : Nat := 0x11
def SA_OPCODE_WINDOW_LIST_TO_SPACE  : Nat := 0x12
def SA_OPCODE_WINDOW_TO_SPACE       : Nat := 0x13
def SA_OPCODE_WINDOW_RESIZE         : Nat := 0x14
def SA_OPCODE_WINDOW_SET_FRAME      : Nat := 0x15
def SA_OPCODE_WINDOW_GET_OPACITY    : Nat := 0x16
def SA_OPCODE_WINDOW_GET_FRAME      : Nat := 0x17
def SA_OPCODE_WINDOW_IS_STICKY      : Nat := 0x18
def SA_OPCODE_WINDOW_GET_LAYER      : Nat := 0x19
def SA_OPCODE_WINDOW_MINIMIZE       : Nat := 0x1A
def SA_OPCODE_WINDOW_UNMINIMIZE     : Nat := 0x1B
def SA_OPCODE_WINDOW_IS_MINIMIZED   : Nat := 0x1C
def SA_OPCODE_DISPLAY_GET_COUNT     : Nat := 0x1D
def SA_OPCODE_DISPLAY_GET_LIST      : Nat := 0x1E

/-- All members of `enum sa_opcode`, in declaration order. -/
def saOpcodeList : List Nat :=
  [SA_OPCODE_HANDSHAKE, SA_OPCODE_SPACE_FOCUS, SA_OPCODE_SPACE_CREATE,
   SA_OPCODE_SPACE_DESTROY, SA_OPCODE_SPACE_MOVE, SA_OPCODE_WINDOW_MOVE,
   SA_OPCODE_WINDOW_OPACITY, SA_OPCODE_WINDOW_OPACITY_FADE,
   SA_OPCODE_WINDOW_LAYER, SA_OPCODE_WINDOW_STICKY, SA_OPCODE_WINDOW_SHADOW,
   SA_OPCODE_WINDOW_FOCUS, SA_OPCODE_WINDOW_SCALE,
   SA_OPCODE_WINDOW_SWAP_PROXY_IN, SA_OPCODE_WINDOW_SWAP_PROXY_OUT,
   SA_OPCODE_WINDOW_ORDER, SA_OPCODE_WINDOW_ORDER_IN,
   SA_OPCODE_WINDOW_LIST_TO_SPACE, SA_OPCODE_WINDOW_TO_SPACE,
   SA_OPCODE_WINDOW_RESIZE, SA_OPCODE_WINDOW_SET_FRAME,
   SA_OPCODE_WINDOW_GET_OPACITY, SA_OPCODE_WINDOW_GET_FRAME,
   SA_OPCODE_WINDOW_IS_STICKY, SA_OPCODE_WINDOW_GET_LAYER,
   SA_OPCODE_WINDOW_MINIMIZE, SA_OPCODE_WINDOW_UNMINIMIZE,
   SA_OPCODE_WINDOW_IS_MINIMIZED, SA_OPCODE_DISPLAY_GET_COUNT,
   SA_OPCODE_DISPLAY_GET_LIST]

/-! ## Capability counting loops (src/cli/cli.c) -/

/-- The per-bit counting loop of `cmd_status` (cli.c lines 208–211):
`for (int i = 0; i < 7; i++) if (capabilities & (1 << i)) cap_count++;`. -/
def statusCapCount (capabilities : Nat) : Nat :=
  (List.range 7).foldl
    (fun cap_count i =>
      if (capabilities &&& (1 <<< i)) != 0 then cap_count + 1 else cap_count) 0

/-- The flag-by-flag counting sequence of `cmd_test` (cli.c lines 252–259):
one `if (capabilities & MSS_CAP_*) cap_count++;` per named capability. -/
def testCapCount (capabilities : Nat) : Nat :=
  let cap_count : Nat := 0
  let cap_count := if (capabilities &&& MSS_CAP_DOCK_SPACES) != 0 then cap_count + 1 else cap_count
  let cap_count := if (capabilities &&& MSS_CAP_DPPM) != 0 then cap_count + 1 else cap_count
  let cap_count := if (capabilities &&& MSS_CAP_ADD_SPACE) != 0 then cap_count + 1 else cap_count
  let cap_count := if (capabilities &&& MSS_CAP_REM_SPACE) != 0 then cap_count + 1 else cap_count
  let cap_count := if (capabilities &&& MSS_CAP_MOV_SPACE) != 0 then cap_count + 1 else cap_count
  let cap_count := if (capabilities &&& MSS_CAP_SET_WINDOW) != 0 then cap_count + 1 else cap_count
  let cap_count := if (capabilities &&& MSS_CAP_ANIM_TIME) != 0 then cap_count + 1 else cap_count
  cap_count

/-- Population count over the 32 bits of a `uint32_t` value (the C type of the
capability mask): the number of set bits of `mask`. -/
def popCount (mask : Nat) : Nat :=
  (List.range 32).foldl (fun acc i => acc + (mask >>> i) % 2) 0

/-! ## Transport utilities (src/src/util.h) -/

/-- A failure cause of the `connect(2)` system call on a Unix-domain socket,
as distinguished at the operating-system level: the path does not exist, the
path exists but is not a socket, or the peer refuses the connection. -/
inductive ConnectFailure
  | pathMissing
  | notASocket
  | peerRefused
deriving DecidableEq

/-- The environment of one `socket_connect` call: what `connect(2)` does for
each possible `sun_path` contents (`none` = the call succeeds and returns `0`,
`some cause` = it fails with that cause and returns `-1`). -/
structure ConnectEnv where
  os_outcome : List Char → Option ConnectFailure

/-- The observable return value of `connect(2)`: `-1` on any failure,
whatever its cause; `0` on success. -/
def os_connect_result (outcome : Option ConnectFailure) : Int :=
  match outcome with
  | none => 0
  | some _ => -1

/-- `sizeof(socket_address.sun_path)` for `struct sockaddr_un` on the target
platform (macOS): 104 bytes. -/
def sun_path_size : Nat := 104

/-- The `sun_path` contents produced by the `snprintf` of `socket_connect`
(util.h line 23): `snprintf` writes at most `sun_path_size` bytes including
the terminating NUL, so it stores the first `sun_path_size - 1` characters of
`socket_path` and a NUL. -/
def sun_path_written (socket_path : List Char) : List Char :=
  socket_path.take (sun_path_size - 1)

/-- `socket_connect` (util.h lines 18–25): fill `sun_path` via `snprintf`,
call `connect(2)` on the resulting address, and return whether the result is
not `-1`. -/
def socket_connect (env : ConnectEnv) (socket_path : List Char) : Bool :=
  os_connect_result (env.os_outcome (sun_path_written socket_path)) != -1

/-- Socket-level events a transport operation can perform, in program order. -/
inductive SockEvent
  | ev_socket
  | ev_connect
  | ev_send
  | ev_recv
  | ev_shutdown_rdwr (sockfd : Int)
  | ev_close (sockfd : Int)
deriving DecidableEq

/-- `socket_close` (util.h lines 27–31): `shutdown(sockfd, SHUT_RDWR)` then
`close(sockfd)`, as the event trace it performs. -/
def socket_close (sockfd : Int) : List SockEvent :=
  [SockEvent.ev_shutdown_rdwr sockfd, SockEvent.ev_close sockfd]

/-- `is_root` (util.h lines 34–37): `getuid() == 0 || geteuid() == 0`, with
the real and effective UIDs passed as explicit inputs. -/
def is_root (ruid euid : Nat) : Bool :=
  ruid == 0 || euid == 0

/-! ## Client session (handshake) as an event trace -/

/-- Outcome of one handshake session. -/
inductive HandshakeOutcome
  | connectError
  | ioError
  | protocolError
  | success
deriving DecidableEq

/-- The environment of one handshake session: which of its steps succeed, and
the descriptor the `socket` call yields when it succeeds. -/
structure SessionEnv where
  openOk : Bool
  fd : Int
  connectOk : Bool
  sendOk : Bool
  recvOk : Bool
  decodeOk : Bool

/-- Modelled from the spec: the Client Session `handshake` body lives in the
`mss` library, which is not among the repository files under `src/` (only its
callers in `cli.c` are). Spec §4.4: "open transport, connect to `Context`'s
socket path, send encoded handshake request, receive up to a fixed maximum,
decode, close transport (always, via scoped acquisition regardless of
outcome)", with `connect` failing with `ConnectError`, send/receive with
`IoError`, decode with `ProtocolError`. The close itself is the `socket_close`
of util.h. The value is the outcome paired with the event trace performed. -/
def handshake_session (env : SessionEnv) : HandshakeOutcome × List SockEvent :=
  if !env.openOk then
    (HandshakeOutcome.connectError, [SockEvent.ev_socket])
  else if !env.connectOk then
    (HandshakeOutcome.connectError,
     [SockEvent.ev_socket, SockEvent.ev_connect] ++ socket_close env.fd)
  else if !env.sendOk then
    (HandshakeOutcome.ioError,
     [SockEvent.ev_socket, SockEvent.ev_connect, SockEvent.ev_send] ++ socket_close env.fd)
  else if !env.recvOk then
    (HandshakeOutcome.ioError,
     [SockEvent.ev_socket, SockEvent.ev_connect, SockEvent.ev_send,
      SockEvent.ev_recv] ++ socket_close env.fd)
  else if !env.decodeOk then
    (HandshakeOutcome.protocolError,
     [SockEvent.ev_socket, SockEvent.ev_connect, SockEvent.ev_send,
      SockEvent.ev_recv] ++ socket_close env.fd)
  else
    (HandshakeOutcome.success,
     [SockEvent.ev_socket, SockEvent.ev_connect, SockEvent.ev_send,
      SockEvent.ev_recv] ++ socket_close env.fd)

/-! ## Command handlers (src/cli/cli.c) -/

/-- The environment `cmd_status` reads: the result of the `stat` call of
`is_installed` (cli.c lines 100–104), of `mss_handshake` (`some` of
capabilities and version string on `MSS_SUCCESS`), and of
`mss_check_requirements` (`true` on `MSS_SUCCESS`). -/
structure StatusEnv where
  installed : Bool
  handshake : Option (Nat × String)
  requirementsMet : Bool

/-- The report `cmd_status` prints: one line per sub-check. `loadingDetail`
carries the version and capability count printed on the loaded line. -/
structure StatusReport where
  installationOk : Bool
  loadingOk : Bool
  loadingDetail : Option (String × Nat)
  requirementsOk : Bool

/-- What one `cmd_status` call produces: its report and exit code, the
sequence of values assigned to the global `g_verbose` during the call, and
the value `g_verbose` holds when the call returns. -/
structure CmdStatusOut where
  report : StatusReport
  exitCode : Nat
  verboseWrites : List Bool
  finalVerbose : Bool

/-- `cmd_status` (cli.c lines 190–232), with the global `g_verbose` passed as
the entry state. Lines 219–222 of the C source are
`bool old_verbose = g_verbose; g_verbose = false;
result = mss_check_requirements(ctx); g_verbose = old_verbose;` —
two assignments to `g_verbose`, recorded in `verboseWrites` in program
order. The function returns 0 unconditionally (line 231). -/
def cmd_status (g_verbose : Bool) (env : StatusEnv) : CmdStatusOut :=
  let installationOk := env.installed
  let loadingDetail : Option (String × Nat) :=
    match env.handshake with
    | some (capabilities, version) => some (version, statusCapCount capabilities)
    | none => none
  let old_verbose := g_verbose
  let g_verbose := false
  let requirementsOk := env.requirementsMet
  let g_verbose := old_verbose
  { report :=
      { installationOk := installationOk,
        loadingOk := loadingDetail.isSome,
        loadingDetail := loadingDetail,
        requirementsOk := requirementsOk },
    exitCode := 0,
    verboseWrites := [false, old_verbose],
    finalVerbose := g_verbose }

/-- `cmd_check` (cli.c lines 110–128): exit 0 when `mss_check_requirements`
returned `MSS_SUCCESS`, else 1. -/
def cmd_check (requirementsMet : Bool) : Nat :=
  if requirementsMet then 0 else 1

/-- `cmd_install` (cli.c lines 130–148): exit 0 when `mss_install` returned
`MSS_SUCCESS`, else 1. -/
def cmd_install (installOk : Bool) : Nat :=
  if installOk then 0 else 1

/-- `cmd_load` (cli.c lines 150–168): exit 0 when `mss_load` returned
`MSS_SUCCESS`, else 1. -/
def cmd_load (loadOk : Bool) : Nat :=
  if loadOk then 0 else 1

/-- `cmd_uninstall` (cli.c lines 170–188): exit 0 when `mss_uninstall`
returned `MSS_SUCCESS`, else 1. -/
def cmd_uninstall (uninstallOk : Bool) : Nat :=
  if uninstallOk then 0 else 1

/-- `cmd_test` (cli.c lines 234–270): exit 1 when the handshake fails;
otherwise count the capabilities flag by flag and exit 0 exactly when
`cap_count == 7`. -/
def cmd_test (handshake : Option (Nat × String)) : Nat :=
  match handshake with
  | none => 1
  | some (capabilities, _version) =>
    if testCapCount capabilities == 7 then 0 else 1

/-- A socket path long enough to overflow `sun_path`, used as a concrete
truncation input. -/
def longPathEx : List Char := List.replicate 104 'a'

/-! ## Theorems -/

set_option maxRecDepth 8192 in
/-- Helper for C2: for every mask below `2^7`, both capability-counting loops
of `cli.c` compute the population count of the mask. -/
lemma capCount_eq_popCount_of_lt :
    ∀ m < 128, statusCapCount m = popCount m ∧ testCapCount m = popCount m := by
  decide

/-- C5: the capability model defines exactly 7 named boolean flags, each a
distinct single-bit bitmask value, pairwise disjoint, and their union
(`OSAX_ATTRIB_ALL`) equals `0x7F`. -/
theorem c5_capability_flags :
    osaxAttribList.length = 7 ∧
    osaxAttribList.Nodup ∧
    (∀ a ∈ osaxAttribList, ∃ i < 7, a = 2 ^ i) ∧
    osaxAttribList.Pairwise (fun a b => a &&& b = 0) ∧
    osaxAttribList.foldl (fun a b => a ||| b) 0 = OSAX_ATTRIB_ALL ∧
    OSAX_ATTRIB_ALL = 0x7F := by
  decide

/-- C6: all opcodes of `enum sa_opcode` have pairwise-distinct numeric codes,
and every code lies in the namespace `0x01` through `0x1E` inclusive. -/
theorem c6_opcode_codes :
    saOpcodeList.Nodup ∧ ∀ c ∈ saOpcodeList, 0x01 ≤ c ∧ c ≤ 0x1E := by
  decide

/-- C2: for every valid capability bitmask (one whose set bits all lie within
`OSAX_ATTRIB_ALL`), the capability count computed by the per-bit counting
loop of `cmd_status` — and equally by the flag-by-flag sequence of
`cmd_test` — equals the population count of the bitmask. -/
theorem c2_capcount_eq_popcount (mask : Nat)
    (h : mask &&& OSAX_ATTRIB_ALL = mask) :
    statusCapCount mask = popCount mask ∧ testCapCount mask = popCount mask := by
  have hle : mask &&& OSAX_ATTRIB_ALL ≤ OSAX_ATTRIB_ALL := Nat.and_le_right
  rw [h] at hle
  have hall : OSAX_ATTRIB_ALL = 127 := rfl
  exact capCount_eq_popCount_of_lt mask (by omega)

/-- Witness for C2 at the concrete valid mask `0x55`. -/
theorem c2_capcount_eq_popcount_witness :
    (85 &&& OSAX_ATTRIB_ALL = 85) ∧
    (statusCapCount 85 = popCount 85 ∧ testCapCount 85 = popCount 85) :=
  ⟨by decide, c2_capcount_eq_popcount 85 (by decide)⟩

/-- C1 counterexample: `cmd_status` does mutate the process-wide verbose
flag. At a concrete input (verbose flag `true` at entry, service absent) the
call performs a non-empty sequence of assignments to `g_verbose` — namely
`[false, true]`, the write of `false` before the requirements sub-check and
the restoring write — refuting the claim that the flag is never mutated after
startup and that `status` mutates no process state. -/
theorem c1_status_mutates_verbose :
    (cmd_status true (StatusEnv.mk false none false)).verboseWrites = [false, true] ∧
    (cmd_status true (StatusEnv.mk false none false)).verboseWrites ≠ [] := by
  decide

/-- C1 (amended): `cmd_status` temporarily assigns `false` to the verbose
flag around its requirements sub-check and then restores the entry value, so
for every entry value and environment the writes it performs are exactly
`[false, entry]` and the flag's value on return equals its value at entry;
apart from this save/restore pair the status operation mutates no other
process state. -/
theorem c1_verbose_saved_restored (v : Bool) (env : StatusEnv) :
    (cmd_status v env).verboseWrites = [false, v] ∧
    (cmd_status v env).finalVerbose = v := by
  obtain ⟨inst, hs, req⟩ := env
  rcases hs with _ | ⟨caps, ver⟩ <;> exact ⟨rfl, rfl⟩

/-- C3: the status operation never fails: for every environment (service
absent, bundle missing, requirements unmet included) `cmd_status` exits with
code 0 and returns a report covering all three sub-checks — installation,
loading, requirements — marking each failed sub-check as failed (each report
field equals the outcome of its sub-check). -/
theorem c3_status_never_fails (v : Bool) (env : StatusEnv) :
    (cmd_status v env).exitCode = 0 ∧
    (cmd_status v env).report.installationOk = env.installed ∧
    (cmd_status v env).report.loadingOk = env.handshake.isSome ∧
    (cmd_status v env).report.requirementsOk = env.requirementsMet := by
  obtain ⟨inst, hs, req⟩ := env
  rcases hs with _ | ⟨caps, ver⟩ <;> exact ⟨rfl, rfl, rfl, rfl⟩

/-- C4: every command handler returns exit code 0 for full success and 1 for
any reported failure (`cmd_status` always succeeds at producing its report,
so it always returns 0); for `cmd_test` specifically, exit code 0 holds
exactly when the handshake succeeded and the fully-functional predicate
(capability count = 7) holds, so a successful handshake with fewer than 7
capabilities yields exit code 1. -/
theorem c4_exit_codes :
    (∀ r : Bool, cmd_check r = if r then 0 else 1) ∧
    (∀ r : Bool, cmd_install r = if r then 0 else 1) ∧
    (∀ r : Bool, cmd_load r = if r then 0 else 1) ∧
    (∀ r : Bool, cmd_uninstall r = if r then 0 else 1) ∧
    (∀ v : Bool, ∀ env : StatusEnv, (cmd_status v env).exitCode = 0) ∧
    (∀ hs : Option (Nat × String), cmd_test hs = 0 ∨ cmd_test hs = 1) ∧
    (∀ hs : Option (Nat × String),
      cmd_test hs = 0 ↔ ∃ caps ver, hs = some (caps, ver) ∧ testCapCount caps = 7) ∧
    (∀ caps : Nat, ∀ ver : String,
      testCapCount caps < 7 → cmd_test (some (caps, ver)) = 1) := by
  refine ⟨fun r => rfl, fun r => rfl, fun r => rfl, fun r => rfl,
    fun v env => rfl, ?_, ?_, ?_⟩
  · intro hs
    rcases hs with _ | ⟨caps, ver⟩
    · exact Or.inr rfl
    · by_cases h7 : testCapCount caps = 7 <;> simp [cmd_test, h7]
  · intro hs
    rcases hs with _ | ⟨caps, ver⟩
    · simp [cmd_test]
    · by_cases h7 : testCapCount caps = 7 <;> simp [cmd_test, h7]
  · intro caps ver hlt
    have h7 : testCapCount caps ≠ 7 := by omega
    simp [cmd_test, h7]

/-- C7: for every socket path and every failure cause (path missing, not a
socket, peer refusing), `socket_connect` reports the one undifferentiated
error kind `false`: its boolean result is the same for any two failure
causes, so it carries no information distinguishing them. -/
theorem c7_connect_failures_indistinguishable (f g : ConnectFailure)
    (socket_path : List Char) :
    socket_connect (ConnectEnv.mk fun _ => some f) socket_path = false ∧
    socket_connect (ConnectEnv.mk fun _ => some f) socket_path
      = socket_connect (ConnectEnv.mk fun _ => some g) socket_path :=
  ⟨rfl, rfl⟩

/-- C8: `socket_close` performs a shutdown of both directions followed by a
close of the descriptor, in that order; and on every exit path of a handshake
session on which the socket was opened — connect refused, send or receive
failure, decode failure, success — the event trace ends with exactly that
shutdown-then-close pair on the session's descriptor, with no earlier
shutdown or close. -/
theorem c8_close_shutdown_then_close (fd : Int) (env : SessionEnv)
    (h : env.openOk = true) :
    socket_close fd = [SockEvent.ev_shutdown_rdwr fd, SockEvent.ev_close fd] ∧
    ∃ pre, (handshake_session env).2
        = pre ++ [SockEvent.ev_shutdown_rdwr env.fd, SockEvent.ev_close env.fd] ∧
      (∀ k : Int, SockEvent.ev_shutdown_rdwr k ∉ pre) ∧
      (∀ k : Int, SockEvent.ev_close k ∉ pre) := by
  refine ⟨rfl, ?_⟩
  obtain ⟨o, fd', c, s, r, d⟩ := env
  simp only at h
  subst h
  cases c <;> cases s <;> cases r <;> cases d <;>
    first
      | exact ⟨[SockEvent.ev_socket, SockEvent.ev_connect], rfl,
          fun k => by simp, fun k => by simp⟩
      | exact ⟨[SockEvent.ev_socket, SockEvent.ev_connect, SockEvent.ev_send], rfl,
          fun k => by simp, fun k => by simp⟩
      | exact ⟨[SockEvent.ev_socket, SockEvent.ev_connect, SockEvent.ev_send,
            SockEvent.ev_recv], rfl,
          fun k => by simp, fun k => by simp⟩

/-- Witness for C8 at a concrete session: socket opened as descriptor 3,
connect refused. -/
theorem c8_close_shutdown_then_close_witness :
    (SessionEnv.mk true 3 false false false false).openOk = true ∧
    (socket_close 3 = [SockEvent.ev_shutdown_rdwr 3, SockEvent.ev_close 3] ∧
     ∃ pre, (handshake_session (SessionEnv.mk true 3 false false false false)).2
         = pre ++ [SockEvent.ev_shutdown_rdwr (SessionEnv.mk true 3 false false false false).fd,
                   SockEvent.ev_close (SessionEnv.mk true 3 false false false false).fd] ∧
       (∀ k : Int, SockEvent.ev_shutdown_rdwr k ∉ pre) ∧
       (∀ k : Int, SockEvent.ev_close k ∉ pre)) :=
  ⟨rfl, c8_close_shutdown_then_close 3 (SessionEnv.mk true 3 false false false false) rfl⟩

/-- C9: `is_root` returns true if and only if the real UID or the effective
UID equals 0; in particular a caller whose effective UID is 0 is treated as
privileged whatever its real UID (the setuid case). -/
theorem c9_is_root_iff (ruid euid : Nat) :
    (is_root ruid euid = true ↔ ruid = 0 ∨ euid = 0) ∧
    is_root ruid 0 = true := by
  constructor
  · simp [is_root]
  · simp [is_root]

/-- C10: for every socket path, the `snprintf` of `socket_connect` writes at
most `sizeof(sun_path)` bytes (stored characters plus the NUL terminator)
into `sun_path`, so an overlong path never overflows the buffer; and a path
at least as long as the field's capacity is silently truncated to its first
`sun_path_size - 1` characters — strictly shorter than the path — and the
connection is attempted against that truncated path. -/
theorem c10_sun_path_truncation (socket_path : List Char)
    (h : sun_path_size ≤ socket_path.length) :
    (∀ p : List Char, (sun_path_written p).length + 1 ≤ sun_path_size) ∧
    sun_path_written socket_path = socket_path.take (sun_path_size - 1) ∧
    (sun_path_written socket_path).length < socket_path.length ∧
    (∀ env : ConnectEnv,
      socket_connect env socket_path
        = socket_connect env (socket_path.take (sun_path_size - 1))) := by
  refine ⟨?_, rfl, ?_, ?_⟩
  · intro p
    simp [sun_path_written, sun_path_size]
  · simp only [sun_path_written, sun_path_size, List.length_take] at h ⊢
    omega
  · intro env
    have hs : sun_path_written (socket_path.take (sun_path_size - 1))
        = sun_path_written socket_path := by
      simp [sun_path_written, List.take_take]
    simp only [socket_connect, hs]

/-- Witness for C10 at a concrete 104-character path. -/
theorem c10_sun_path_truncation_witness :
    sun_path_size ≤ longPathEx.length ∧
    ((∀ p : List Char, (sun_path_written p).length + 1 ≤ sun_path_size) ∧
     sun_path_written longPathEx = longPathEx.take (sun_path_size - 1) ∧
     (sun_path_written longPathEx).length < longPathEx.length ∧
     (∀ env : ConnectEnv,
       socket_connect env longPathEx
         = socket_connect env (longPathEx.take (sun_path_size - 1)))) :=
  ⟨by decide, c10_sun_path_truncation longPathEx (by decide)⟩
